import Mathlib

/-!
Shallow embedding of `gvfs/gfileinfosimple.c` and verification of its
specification.

Bytes are modelled as `Nat` (values below 256 where it matters); C strings
as Lean `String` for attribute names and `List Nat` for binary values.
The OS surface (stat, readlink, xattr, SELinux label calls) is modelled as
a deterministic oracle record, and every function additionally returns the
list of OS calls it issued, so that properties about *which* call variants
are used can be stated.
-/

namespace GFileInfoSimple

/-! ## ByteEscaper: `valid_char`, `escape_xattr` (gfileinfosimple.c lines 77-130) -/

/-- `valid_char` from the source: `c >= 32 && c <= 126 && c != '\\'`.
The C `char` is signed, so a byte with value ≥ 128 is negative and fails
`c >= 32`; on byte values 0..255 this agrees with the condition below. -/
def valid_char (c : Nat) : Bool :=
  decide (32 ≤ c ∧ c ≤ 126 ∧ c ≠ 92)

/-- The static table `hex_digits = "0123456789abcdef"` as byte values. -/
def hex_digits : List Nat :=
  [48, 49, 50, 51, 52, 53, 54, 55, 56, 57, 97, 98, 99, 100, 101, 102]

/-- The four bytes the escaping loop emits for an invalid byte `c`:
`'\\'`, `'x'`, `hex_digits[(c >> 8) & 0xf]`, `hex_digits[c & 0xf]`. -/
def escape_byte (c : Nat) : List Nat :=
  [92, 120, hex_digits.getD ((c >>> 8) &&& 15) 0, hex_digits.getD (c &&& 15) 0]

/-- Result of the value transformation inside `escape_xattr`: either the
input is stored verbatim (the `num_invalid == 0` branch, no escaped copy
is built), or a freshly built escaped copy is stored. -/
inductive EscapeResult where
  | verbatim (v : List Nat)
  | escaped (v : List Nat)
deriving DecidableEq, Repr

/-- The value transformation of `escape_xattr`: count invalid bytes; if
none, use the input verbatim, otherwise build the escaped copy where each
valid byte is copied and each invalid byte becomes `escape_byte`. -/
def escape_value (value : List Nat) : EscapeResult :=
  let num_invalid := value.countP (fun c => !valid_char c)
  if num_invalid = 0 then
    .verbatim value
  else
    .escaped ((value.map (fun c => if valid_char c then [c] else escape_byte c)).flatten)

/-- The byte sequence actually stored as the attribute value. -/
def escape_payload : EscapeResult → List Nat
  | .verbatim v => v
  | .escaped v => v

/-- Modelled from the spec: the escape transform as §4.2 words it — each
safe byte (printable ASCII 32..126, not the escape character) is copied,
each unsafe byte becomes the escape character, a literal `x`, then the
lowercase hex digit of `(c >> 8) & 0xF` followed by that of `c & 0xF`. -/
def spec_hex_digit (n : Nat) : Nat :=
  if n < 10 then 48 + n else 87 + n

/-- Modelled from the spec: the whole escape transform of §4.2. -/
def spec_escape (v : List Nat) : List Nat :=
  (v.map (fun c =>
    if 32 ≤ c ∧ c ≤ 126 ∧ c ≠ 92 then [c]
    else [92, 120, spec_hex_digit ((c >>> 8) &&& 15), spec_hex_digit (c &&& 15)])).flatten

/-! ## SymlinkResolver: `read_link` (gfileinfosimple.c lines 18-42)

`readlink(2)` writes the first `min (target length) bufsize` bytes of the
link target into the buffer and returns that count (no NUL terminator).
The oracle supplies the link target (`none` models a failing call, which
the C code turns into freeing the buffer and returning NULL).  The loop is
modelled with the buffer contents made explicit; the second component of
the result is the final buffer size. -/

/-- The `while (1)` loop of `read_link`, starting from buffer size `size`:
call `readlink`, return the NUL-terminated buffer when the read size is
strictly below the buffer size, otherwise double the buffer and retry.
The `size = 0` guard is unreachable from the actual start size 256 and
only serves the termination argument. -/
def read_link_loop (t : List Nat) (size : Nat) : Option (List Nat) × Nat :=
  if _h0 : size = 0 then (none, 0)
  else
    let read_size := min t.length size
    if read_size < size then (some (t.take read_size), size)
    else read_link_loop t (size * 2)
termination_by t.length + 1 - size
decreasing_by
  simp_wf
  omega

/-- `read_link`: allocate 256 bytes and run the loop; a failing
`readlink` call frees the buffer and returns NULL. -/
def read_link (target? : Option (List Nat)) : Option (List Nat) × Nat :=
  match target? with
  | none => (none, 256)
  | some t => read_link_loop t 256

/-! ## Data model: attribute bag, error values, request flags, matcher -/

/-- Opaque stand-in for a `struct stat` successfully filled by the OS. -/
structure StatData where
  raw : Nat
deriving DecidableEq, Repr

/-- Errno values used by the modelled OS surface. -/
def ENOENT : Nat := 2
def EACCES : Nat := 13
def ERANGE : Nat := 34
def ENODATA : Nat := 61

/-- Modelled from the spec: glib's `g_file_error_from_errno` (external to
this repository) maps an OS error code to a domain error kind such as
not-found, permission-denied or a generic kind carrying the code. -/
inductive GFileErrorKind where
  | notFound
  | permissionDenied
  | generic (errno : Nat)
deriving DecidableEq, Repr

/-- Modelled from the spec: the mapping from OS error codes to domain
error kinds (§7: "e.g., not-found, permission-denied, generic-I/O"). -/
def g_file_error_from_errno (e : Nat) : GFileErrorKind :=
  if e = ENOENT then .notFound
  else if e = EACCES then .permissionDenied
  else .generic e

/-- The single error value surfaced to callers. -/
structure GError where
  code : GFileErrorKind
deriving DecidableEq, Repr

/-- Modelled from the spec: `g_vfs_error_from_errno` (gvfserror.c, repo
code outside src/) fills the caller's error with the OS error code mapped
to a domain error kind, like the glib mapping. -/
def g_vfs_error_from_errno (e : Nat) : GError :=
  ⟨g_file_error_from_errno e⟩

/-- The attribute bag `GFileInfo` (repo code outside src/), reduced to the
fields this file touches.  `none` in an `Option` field means the field was
never stored; `attributes` holds the qualified-key/value pairs stored via
`g_file_info_set_attribute`. -/
structure GFileInfo where
  name : Option (Option String) := none
  is_hidden : Option Bool := none
  symlink_target : Option (List Nat) := none
  stat_data : Option StatData := none
  attributes : List (String × List Nat) := []

/-- Modelled from the spec: storing a key/value pair in the bag; keys are
unique (§3), so an existing entry under the same key is replaced. -/
def g_file_info_set_attribute (info : GFileInfo) (key : String) (val : List Nat) :
    GFileInfo :=
  { info with attributes := (key, val) :: info.attributes.filter (fun kv => kv.1 ≠ key) }

/-- Modelled from the spec: store the (possibly null) base name. -/
def g_file_info_set_name (info : GFileInfo) (basename : Option String) : GFileInfo :=
  { info with name := some basename }

/-- Modelled from the spec: store the is-hidden boolean. -/
def g_file_info_set_is_hidden (info : GFileInfo) (b : Bool) : GFileInfo :=
  { info with is_hidden := some b }

/-- Modelled from the spec: `g_file_info_set_symlink_target` (repo code
outside src/); §4.6 step 5: a null target leaves the field absent. -/
def g_file_info_set_symlink_target (info : GFileInfo) (target : Option (List Nat)) :
    GFileInfo :=
  { info with symlink_target := target }

/-- Modelled from the spec: `g_file_info_set_from_stat` (repo code outside
src/) populates the stat-derived standard fields selected by the request
flags (§4.6 step 4); collapsed here to storing the stat result when any
stat-derived field was requested. -/
def g_file_info_set_from_stat (info : GFileInfo) (statRequested : Bool)
    (s : StatData) : GFileInfo :=
  if statRequested then { info with stat_data := some s } else info

/-- Modelled from the spec: `GFileAttributeMatcher` (repo code outside
src/), reduced to its three query operations of §4.1: the match predicate
over (namespace, qualified key), the namespace-wide enumerate test, and
the sequence of explicitly named keys yielded by `enumerate_next`. -/
structure GFileAttributeMatcher where
  matchesAttr : String → String → Bool
  enumerateAll : String → Bool
  explicitKeys : List String

/-- Modelled from the spec: a null matcher matches nothing (§4.1, absence
of a matcher means "standard fields only"). -/
def matcher_matches : Option GFileAttributeMatcher → String → String → Bool
  | none, _, _ => false
  | some m, ns, key => m.matchesAttr ns key

/-- Modelled from the spec: `g_file_attribute_matcher_enumerate` on a
possibly-null matcher. -/
def matcher_enumerate : Option GFileAttributeMatcher → String → Bool
  | none, _ => false
  | some m, ns => m.enumerateAll ns

/-- Modelled from the spec: the finite sequence the repeated
`g_file_attribute_matcher_enumerate_next` calls produce. -/
def matcher_next_keys : Option GFileAttributeMatcher → List String
  | none => []
  | some m => m.explicitKeys

/-- Modelled from the spec: `g_file_attribute_matcher_new` (repo code
outside src/) parses the comma-separated request specification of §6 —
tokens `namespace:key`, `namespace:*` or `*` — permissively. -/
def g_file_attribute_matcher_new (attributes : Option String) : GFileAttributeMatcher :=
  let toks := match attributes with
    | none => []
    | some s => s.splitOn ","
  { matchesAttr := fun ns key =>
      toks.any (fun tk => tk == "*" || tk == ns ++ ":*" || tk == key)
    enumerateAll := fun ns =>
      toks.any (fun tk => tk == "*" || tk == ns ++ ":*")
    explicitKeys :=
      toks.filter (fun tk => !(tk == "*") && !(tk.endsWith ":*")) }

/-- The request flags of `GFileInfoRequestFlags` (header outside src/)
that this file tests individually, plus `stat_fields`, which collapses
the remaining bits — those consumed only by the stat-to-attribute
mapping (spec §3/§4.6 step 4). -/
structure GFileInfoRequestFlags where
  name : Bool := false
  is_hidden : Bool := false
  symlink_target : Bool := false
  access_rights : Bool := false
  display_name : Bool := false
  edit_name : Bool := false
  mime_type : Bool := false
  icon : Bool := false
  stat_fields : Bool := false
deriving DecidableEq, Repr

/-- The test `(requested & ~(G_FILE_INFO_NAME|G_FILE_INFO_IS_HIDDEN)) == 0`:
no flag beyond name and is-hidden is set. -/
def requested_only_trivial (r : GFileInfoRequestFlags) : Bool :=
  !r.symlink_target && !r.access_rights && !r.display_name && !r.edit_name
    && !r.mime_type && !r.icon && !r.stat_fields

/-! ## OS surface

Each constructor names the actual C library function invoked, with the
buffer size passed where a size is part of the protocol.  `follows_symlink`
records the POSIX semantics of each function: the plain variants operate on
the symlink's target, the `l`-variants on the link itself. -/

inductive OSCall where
  | statCall
  | lstatCall
  | readlinkCall
  | getfileconCall
  | lgetfileconCall
  | listxattrCall (size : Nat)
  | llistxattrCall (size : Nat)
  | getxattrCall (attr : String) (size : Nat)
  | lgetxattrCall (attr : String) (size : Nat)
deriving DecidableEq, Repr

/-- POSIX semantics: does this call follow a final symlink component? -/
def follows_symlink : OSCall → Bool
  | .statCall => true
  | .lstatCall => false
  | .readlinkCall => false
  | .getfileconCall => true
  | .lgetfileconCall => false
  | .listxattrCall _ => true
  | .llistxattrCall _ => false
  | .getxattrCall _ _ => true
  | .lgetxattrCall _ _ => false

/-- Calls available through the descriptor-based entry point. -/
inductive FdCall where
  | fstatCall
  | fgetfileconCall
deriving DecidableEq, Repr

/-- Deterministic oracle for the path-scoped OS surface.  Every function
takes the follow-symlinks semantics as its `Bool` argument: `true` selects
the plain (symlink-following) variant — `stat`, `getfilecon_raw`,
`listxattr`, `getxattr` — and `false` the `l`-variant. -/
structure OS where
  statResult : Bool → Except Nat StatData
  readlinkTarget : Option (List Nat)
  selinuxEnabled : Bool
  filecon : Bool → Option (List Nat)
  xattrNames : Bool → Option (List String)
  xattrValue : Bool → String → Option (List Nat)

/-- Deterministic oracle for the descriptor-scoped OS surface. -/
structure OSFd where
  fstatResult : Except Nat StatData
  selinuxEnabled : Bool
  fgetfilecon : Option (List Nat)

/-- `getxattr`/`lgetxattr` call semantics over the oracle's value for the
attribute: an absent attribute fails; a zero-sized buffer probes the
required size; a buffer at least as large as the value returns it and its
length; a too-small buffer fails with `ERANGE`. -/
def getxattr_sem (value? : Option (List Nat)) (size : Nat) :
    Except Nat (List Nat × Nat) :=
  match value? with
  | none => .error ENODATA
  | some v =>
    if size = 0 then .ok ([], v.length)
    else if v.length ≤ size then .ok (v, v.length)
    else .error ERANGE

/-- The trace entry for one `getxattr`/`lgetxattr` call. -/
def xattr_call (follow_symlinks : Bool) (attr : String) (size : Nat) : OSCall :=
  if follow_symlinks then .getxattrCall attr size else .lgetxattrCall attr size

/-- The trace entry for one `listxattr`/`llistxattr` call. -/
def listxattr_call (follow_symlinks : Bool) (size : Nat) : OSCall :=
  if follow_symlinks then .listxattrCall size else .llistxattrCall size

/-- Size of the NUL-separated name list `listxattr` reports: each name
contributes its length plus the terminating NUL. -/
def xattr_names_size (names : List String) : Nat :=
  (names.map (fun a => a.length + 1)).sum

/-! ## `escape_xattr`, `get_one_xattr`, `get_xattrs` (lines 83-247) -/

/-- `escape_xattr` proper: build `full_attr = "xattr:" ++ attr` and store
the (possibly escaped) value under it. -/
def escape_xattr (info : GFileInfo) (attr : String) (value : List Nat) : GFileInfo :=
  let full_attr := "xattr:" ++ attr
  g_file_info_set_attribute info full_attr (escape_payload (escape_value value))

/-- `get_one_xattr` (lines 132-183): try the 64-byte stack buffer (passing
`sizeof(value)-1 = 63`); on `ERANGE` probe the exact size with a
zero-length call, allocate it, refetch; any other failure skips the key;
on success escape and store the value. -/
def get_one_xattr (os : OS) (info : GFileInfo) (attr : String)
    (follow_symlinks : Bool) : GFileInfo × List OSCall :=
  match getxattr_sem (os.xattrValue follow_symlinks attr) 63 with
  | .ok (v, len) => (escape_xattr info attr (v.take len), [xattr_call follow_symlinks attr 63])
  | .error e =>
    if e = ERANGE then
      match getxattr_sem (os.xattrValue follow_symlinks attr) 0 with
      | .error _ =>
        (info, [xattr_call follow_symlinks attr 63, xattr_call follow_symlinks attr 0])
      | .ok (_, len) =>
        match getxattr_sem (os.xattrValue follow_symlinks attr) len with
        | .error _ =>
          (info, [xattr_call follow_symlinks attr 63, xattr_call follow_symlinks attr 0,
                  xattr_call follow_symlinks attr len])
        | .ok (v2, len2) =>
          (escape_xattr info attr (v2.take len2),
           [xattr_call follow_symlinks attr 63, xattr_call follow_symlinks attr 0,
            xattr_call follow_symlinks attr len])
    else
      (info, [xattr_call follow_symlinks attr 63])

/-- The `retry:` loop of `get_xattrs` (lines 214-226): list with the
current buffer size, doubling on `ERANGE`.  With the deterministic oracle
the only failure a listing call can report once names exist is `ERANGE`
(buffer too small), so the loop is phrased on the name list directly; the
`list_size = 0` guard is unreachable (the start size is positive) and
serves the termination argument. -/
def get_xattrs_list_loop (names : List String) (follow_symlinks : Bool)
    (list_size : Nat) : List String × List OSCall :=
  if _h0 : list_size = 0 then (names, [])
  else if xattr_names_size names ≤ list_size then
    (names, [listxattr_call follow_symlinks list_size])
  else
    let rest := get_xattrs_list_loop names follow_symlinks (list_size * 2)
    (rest.1, listxattr_call follow_symlinks list_size :: rest.2)
termination_by xattr_names_size names + 1 - list_size
decreasing_by
  simp_wf
  omega

/-- The walk over the NUL-separated attribute-name list (lines 231-238),
also used for the explicit-keys mode: fetch each name in turn. -/
def get_xattrs_walk (os : OS) (info : GFileInfo) (names : List String)
    (follow_symlinks : Bool) : GFileInfo × List OSCall :=
  match names with
  | [] => (info, [])
  | attr :: rest =>
    let r1 := get_one_xattr os info attr follow_symlinks
    let r2 := get_xattrs_walk os r1.1 rest follow_symlinks
    (r2.1, r1.2 ++ r2.2)

/-- `get_xattrs` (lines 185-247): in enumerate-all mode probe the list
size with a zero-length call (failure or zero size ends cleanly), then
list with that size under the retry loop and walk the names; otherwise
fetch exactly the matcher's explicitly named keys. -/
def get_xattrs (os : OS) (info : GFileInfo)
    (matcher : Option GFileAttributeMatcher) (follow_symlinks : Bool) :
    GFileInfo × List OSCall :=
  let all := matcher_enumerate matcher "xattr"
  if all then
    match os.xattrNames follow_symlinks with
    | none => (info, [listxattr_call follow_symlinks 0])
    | some names =>
      if xattr_names_size names = 0 then (info, [listxattr_call follow_symlinks 0])
      else
        let lr := get_xattrs_list_loop names follow_symlinks (xattr_names_size names)
        let w := get_xattrs_walk os info lr.1 follow_symlinks
        (w.1, listxattr_call follow_symlinks 0 :: (lr.2 ++ w.2))
  else
    get_xattrs_walk os info (matcher_next_keys matcher) follow_symlinks

/-! ## `get_selinux_context` (lines 45-75) and the entry points -/

/-- `get_selinux_context`: nothing is fetched unless the matcher matches
`selinux:context` and SELinux is enabled (the `HAVE_SELINUX` build flag
and the runtime `is_selinux_enabled()` check are collapsed into the
oracle's `selinuxEnabled`).  When `follow_symlinks` is set the source
calls `lgetfilecon_raw` (the `l`-variant), otherwise `getfilecon_raw`;
a failure or a null context stores nothing. -/
def get_selinux_context (os : OS) (info : GFileInfo)
    (attribute_matcher : Option GFileAttributeMatcher) (follow_symlinks : Bool) :
    GFileInfo × List OSCall :=
  if !(matcher_matches attribute_matcher "selinux" "selinux:context") then
    (info, [])
  else if os.selinuxEnabled then
    if follow_symlinks then
      match os.filecon false with
      | none => (info, [.lgetfileconCall])
      | some context =>
        (g_file_info_set_attribute info "selinux:context" context, [.lgetfileconCall])
    else
      match os.filecon true with
      | none => (info, [.getfileconCall])
      | some context =>
        (g_file_info_set_attribute info "selinux:context" context, [.getfileconCall])
  else
    (info, [])

/-- The `basename != NULL && basename[0] == '.'` test of lines 268-269
(`basename[0]` on an empty C string reads the terminating NUL). -/
def basename_starts_with_dot (basename : Option String) : Bool :=
  match basename with
  | none => false
  | some s => s.toList.headD (Char.ofNat 0) == Char.ofNat 46

/-- The `stat`/`lstat` trace entry of lines 277-280. -/
def stat_call (follow_symlinks : Bool) : OSCall :=
  if follow_symlinks then .statCall else .lstatCall

/-- `g_file_info_simple_get` (lines 249-331): set name and is-hidden as
requested; return before any OS call in the trivial case; `stat`/`lstat`
failure aborts with the mapped error and no bag; then stat-derived fields,
the symlink target (a `read_link` failure stores a null target, i.e. the
field stays absent), the five placeholder flags (no effect), the SELinux
context and the extended attributes. -/
def g_file_info_simple_get (os : OS) (basename : Option String)
    (requested : GFileInfoRequestFlags)
    (attribute_matcher : Option GFileAttributeMatcher)
    (follow_symlinks : Bool) : Except GError GFileInfo × List OSCall :=
  let info0 : GFileInfo := {}
  let info1 := if requested.name then g_file_info_set_name info0 basename else info0
  let info2 := if requested.is_hidden then
      g_file_info_set_is_hidden info1 (basename_starts_with_dot basename)
    else info1
  if requested_only_trivial requested && attribute_matcher.isNone then
    (.ok info2, [])
  else
    match os.statResult follow_symlinks with
    | .error e => (.error ⟨g_file_error_from_errno e⟩, [stat_call follow_symlinks])
    | .ok statbuf =>
      let info3 := g_file_info_set_from_stat info2 requested.stat_fields statbuf
      let linkStep : GFileInfo × List OSCall :=
        if requested.symlink_target then
          (g_file_info_set_symlink_target info3 (read_link os.readlinkTarget).1,
           [OSCall.readlinkCall])
        else (info3, [])
      let selStep := get_selinux_context os linkStep.1 attribute_matcher follow_symlinks
      let xaStep := get_xattrs os selStep.1 attribute_matcher follow_symlinks
      (.ok xaStep.1, stat_call follow_symlinks :: (linkStep.2 ++ (selStep.2 ++ xaStep.2)))

/-- `g_file_info_simple_get_from_fd` (lines 334-371): `fstat` failure
aborts with the mapped error and no bag; otherwise populate the
stat-derived fields, parse the attribute string into a matcher and fetch
the SELinux context through the descriptor. -/
def g_file_info_simple_get_from_fd (os : OSFd)
    (requested : GFileInfoRequestFlags) (attributes : Option String) :
    Except GError GFileInfo × List FdCall :=
  match os.fstatResult with
  | .error e => (.error (g_vfs_error_from_errno e), [.fstatCall])
  | .ok stat_buf =>
    let info := g_file_info_set_from_stat {} requested.stat_fields stat_buf
    let matcher := g_file_attribute_matcher_new attributes
    let selStep : GFileInfo × List FdCall :=
      if matcher.matchesAttr "selinux" "selinux:context" && os.selinuxEnabled then
        match os.fgetfilecon with
        | some context =>
          (g_file_info_set_attribute info "selinux:context" context, [.fgetfileconCall])
        | none => (info, [.fgetfileconCall])
      else (info, [])
    (.ok selStep.1, .fstatCall :: selStep.2)

/-! ## Concrete fixtures used by witnesses and the bug demonstration -/

/-- An oracle whose metadata calls all fail with `ENOENT`. -/
def osAllFail : OS :=
  { statResult := fun _ => .error ENOENT
    readlinkTarget := none
    selinuxEnabled := false
    filecon := fun _ => none
    xattrNames := fun _ => none
    xattrValue := fun _ _ => none }

/-- An oracle for a plain file: `stat` succeeds, `readlink` fails, no
SELinux, one 100-byte xattr value under the name `user.big`. -/
def osPlainFile : OS :=
  { statResult := fun _ => .ok ⟨7⟩
    readlinkTarget := none
    selinuxEnabled := true
    filecon := fun _ => some [115]
    xattrNames := fun _ => some ["user.big"]
    xattrValue := fun _ a => if a == "user.big" then some (List.replicate 100 0) else none }

/-- A descriptor oracle whose `fstat` fails with `EACCES`. -/
def osFdFail : OSFd :=
  { fstatResult := .error EACCES
    selinuxEnabled := false
    fgetfilecon := none }

/-- A matcher that matches only `selinux:context` and enumerates no
namespace, as built from the request string `"selinux:context"`. -/
def selinuxOnlyMatcher : GFileAttributeMatcher :=
  { matchesAttr := fun ns key => ns == "selinux" && key == "selinux:context"
    enumerateAll := fun _ => false
    explicitKeys := [] }

/-- Request flags asking only for stat-derived fields. -/
def statOnlyRequest : GFileInfoRequestFlags := { stat_fields := true }

/-! ### Lemmas about the escaper -/

theorem hex_digits_getD_eq_spec (n : Nat) (h : n < 16) :
    hex_digits.getD n 0 = spec_hex_digit n := by
  revert h; revert n; decide

theorem and_15_lt_16 (c : Nat) : c &&& 15 < 16 :=
  Nat.lt_succ_of_le (Nat.and_le_right)

theorem escape_byte_eq_spec (c : Nat) :
    escape_byte c
      = [92, 120, spec_hex_digit ((c >>> 8) &&& 15), spec_hex_digit (c &&& 15)] := by
  unfold escape_byte
  rw [hex_digits_getD_eq_spec _ (and_15_lt_16 _), hex_digits_getD_eq_spec _ (and_15_lt_16 _)]

theorem escape_each (c : Nat) :
    (if valid_char c then [c] else escape_byte c)
      = (if 32 ≤ c ∧ c ≤ 126 ∧ c ≠ 92 then [c]
         else [92, 120, spec_hex_digit ((c >>> 8) &&& 15), spec_hex_digit (c &&& 15)]) := by
  by_cases h : 32 ≤ c ∧ c ≤ 126 ∧ c ≠ 92
  · simp [valid_char, h]
  · simp [valid_char, h, escape_byte_eq_spec]

theorem flatten_map_singleton (v : List Nat) : (v.map (fun c => [c])).flatten = v := by
  induction v with
  | nil => rfl
  | cons a t ih => simp [ih]

/-- Claim C1: if every byte of the input is in the printable range 32..126
and is not the escape character, the escape operation keeps the input value
verbatim and never constructs the escaped copy. -/
theorem c1_valid_input_verbatim (v : List Nat)
    (h : ∀ c ∈ v, 32 ≤ c ∧ c ≤ 126 ∧ c ≠ 92) :
    escape_value v = .verbatim v := by
  unfold escape_value
  have hcount : v.countP (fun c => !valid_char c) = 0 := by
    rw [List.countP_eq_zero]
    intro a ha
    simp [valid_char, h a ha]
  simp [hcount]

theorem c1_valid_input_verbatim_witness :
    (∀ c ∈ [104, 105], 32 ≤ c ∧ c ≤ 126 ∧ c ≠ 92)
      ∧ escape_value [104, 105] = .verbatim [104, 105] :=
  ⟨by decide, c1_valid_input_verbatim [104, 105] (by decide)⟩

/-- Claim C2: for every input, the stored value is exactly the per-byte
image where each safe byte is copied through and each unsafe byte `c` is
replaced by the 4-character sequence `'\\'`, `'x'`, the lowercase hex digit
of `(c >> 8) & 0xF`, then that of `c & 0xF` (the spec-side transform
`spec_escape`). -/
theorem c2_escape_refines_spec (v : List Nat) :
    escape_payload (escape_value v) = spec_escape v := by
  unfold escape_value spec_escape
  by_cases hc : v.countP (fun c => !valid_char c) = 0
  · have hall : ∀ c ∈ v, valid_char c = true := by
      rw [List.countP_eq_zero] at hc
      intro a ha
      have := hc a ha
      simpa using this
    rw [if_pos hc]
    simp only [escape_payload]
    have hmap : v.map (fun c =>
        if 32 ≤ c ∧ c ≤ 126 ∧ c ≠ 92 then [c]
        else [92, 120, spec_hex_digit ((c >>> 8) &&& 15), spec_hex_digit (c &&& 15)])
        = v.map (fun c => [c]) := by
      apply List.map_congr_left
      intro a ha
      rw [← escape_each]
      simp [hall a ha]
    rw [hmap, flatten_map_singleton]
  · rw [if_neg hc]
    simp only [escape_payload]
    congr 1
    apply List.map_congr_left
    intro a _
    exact escape_each a

/-- Claim C9: every unsafe byte below 256 escapes to `'\\'`, `'x'`, the
digit `'0'` (because `(c >> 8) & 0xF` is 0 for any byte), then the hex
digit of `c & 0xF`; consequently bytes 0x01 and 0x11 escape identically,
so the transform is not injective. -/
theorem c9_high_digit_always_zero (c : Nat) (hc : c < 256)
    (_hinv : valid_char c = false) :
    escape_byte c = [92, 120, 48, hex_digits.getD (c &&& 15) 0]
      ∧ escape_payload (escape_value [1]) = escape_payload (escape_value [17])
      ∧ ([1] : List Nat) ≠ [17] := by
  refine ⟨?_, by decide, by decide⟩
  have hshift : c >>> 8 = 0 := by
    rw [Nat.shiftRight_eq_div_pow]
    exact Nat.div_eq_of_lt (by omega)
  unfold escape_byte
  rw [hshift]
  rfl

theorem c9_high_digit_always_zero_witness :
    (1 < 256 ∧ valid_char 1 = false)
      ∧ (escape_byte 1 = [92, 120, 48, hex_digits.getD (1 &&& 15) 0]
         ∧ escape_payload (escape_value [1]) = escape_payload (escape_value [17])
         ∧ ([1] : List Nat) ≠ [17]) :=
  ⟨by decide, c9_high_digit_always_zero 1 (by decide) (by decide)⟩

/-! ### Lemmas about `read_link` -/

theorem read_link_loop_base (t : List Nat) (size : Nat) (h1 : 0 < size)
    (h2 : t.length < size) :
    read_link_loop t size = (some t, size) := by
  rw [read_link_loop]
  have hmin : min t.length size = t.length := Nat.min_eq_left (Nat.le_of_lt h2)
  rw [dif_neg (Nat.pos_iff_ne_zero.mp h1)]
  simp only [hmin, if_pos h2, List.take_length]

theorem read_link_loop_step (t : List Nat) (size : Nat) (h1 : 0 < size)
    (h2 : size ≤ t.length) :
    read_link_loop t size = read_link_loop t (size * 2) := by
  conv_lhs => rw [read_link_loop]
  have hmin : min t.length size = size := Nat.min_eq_right h2
  rw [dif_neg (Nat.pos_iff_ne_zero.mp h1)]
  simp only [hmin, lt_irrefl, if_false]

theorem read_link_loop_spec (t : List Nat) :
    ∀ fuel size, 0 < size → t.length + 1 - size ≤ fuel →
      (read_link_loop t size).1 = some t
      ∧ t.length < (read_link_loop t size).2
      ∧ size ≤ (read_link_loop t size).2 := by
  intro fuel
  induction fuel with
  | zero =>
    intro size h1 hf
    have hlt : t.length < size := by omega
    rw [read_link_loop_base t size h1 hlt]
    exact ⟨rfl, hlt, Nat.le_refl _⟩
  | succ n ih =>
    intro size h1 hf
    by_cases hlt : t.length < size
    · rw [read_link_loop_base t size h1 hlt]
      exact ⟨rfl, hlt, Nat.le_refl _⟩
    · have h2 : size ≤ t.length := Nat.le_of_not_lt hlt
      rw [read_link_loop_step t size h1 h2]
      have := ih (size * 2) (by omega) (by omega)
      exact ⟨this.1, this.2.1, by omega⟩

/-- Claim C7: `read_link` returns the complete target whatever its length:
a failing `readlink` call yields no partial result; on success the final
buffer strictly exceeds the target length (room for the terminator); and a
target longer than 255 bytes forces at least one doubling of the initial
256-byte buffer. -/
theorem c7_read_link_correct (t : List Nat) :
    read_link none = (none, 256)
    ∧ (read_link (some t)).1 = some t
    ∧ t.length < (read_link (some t)).2
    ∧ (255 < t.length → 512 ≤ (read_link (some t)).2) := by
  have hspec := read_link_loop_spec t (t.length + 1) 256 (by omega) (by omega)
  refine ⟨rfl, hspec.1, hspec.2.1, ?_⟩
  intro hlong
  show 512 ≤ (read_link_loop t 256).2
  rw [read_link_loop_step t 256 (by omega) (by omega)]
  exact (read_link_loop_spec t (t.length + 1) 512 (by omega) (by omega)).2.2

theorem c7_read_link_correct_witness :
    255 < (List.replicate 500 97).length
    ∧ (read_link (some (List.replicate 500 97))).1 = some (List.replicate 500 97)
    ∧ 512 ≤ (read_link (some (List.replicate 500 97))).2 :=
  ⟨by rw [List.length_replicate]; omega, (c7_read_link_correct _).2.1,
    (c7_read_link_correct _).2.2.2 (by rw [List.length_replicate]; omega)⟩

/-! ### Which bag fields the sub-collectors leave untouched -/

theorem set_attribute_fields (info : GFileInfo) (k : String) (v : List Nat) :
    (g_file_info_set_attribute info k v).is_hidden = info.is_hidden
    ∧ (g_file_info_set_attribute info k v).symlink_target = info.symlink_target :=
  ⟨rfl, rfl⟩

theorem set_from_stat_fields (info : GFileInfo) (b : Bool) (s : StatData) :
    (g_file_info_set_from_stat info b s).is_hidden = info.is_hidden
    ∧ (g_file_info_set_from_stat info b s).symlink_target = info.symlink_target := by
  unfold g_file_info_set_from_stat
  split
  · exact ⟨rfl, rfl⟩
  · exact ⟨rfl, rfl⟩

theorem escape_xattr_fields (info : GFileInfo) (attr : String) (v : List Nat) :
    (escape_xattr info attr v).is_hidden = info.is_hidden
    ∧ (escape_xattr info attr v).symlink_target = info.symlink_target :=
  ⟨rfl, rfl⟩

theorem get_one_xattr_fields (os : OS) (info : GFileInfo) (attr : String) (f : Bool) :
    (get_one_xattr os info attr f).1.is_hidden = info.is_hidden
    ∧ (get_one_xattr os info attr f).1.symlink_target = info.symlink_target := by
  unfold get_one_xattr
  repeat' split
  all_goals simp [escape_xattr, g_file_info_set_attribute]

theorem get_xattrs_walk_fields (os : OS) (names : List String) (f : Bool) :
    ∀ info : GFileInfo,
      (get_xattrs_walk os info names f).1.is_hidden = info.is_hidden
      ∧ (get_xattrs_walk os info names f).1.symlink_target = info.symlink_target := by
  induction names with
  | nil => intro info; exact ⟨rfl, rfl⟩
  | cons a rest ih =>
    intro info
    have h1 := get_one_xattr_fields os info a f
    have h2 := ih (get_one_xattr os info a f).1
    exact ⟨h2.1.trans h1.1, h2.2.trans h1.2⟩

theorem get_xattrs_fields (os : OS) (info : GFileInfo)
    (matcher : Option GFileAttributeMatcher) (f : Bool) :
    (get_xattrs os info matcher f).1.is_hidden = info.is_hidden
    ∧ (get_xattrs os info matcher f).1.symlink_target = info.symlink_target := by
  simp only [get_xattrs]
  repeat' split
  · exact ⟨rfl, rfl⟩
  · exact ⟨rfl, rfl⟩
  · exact get_xattrs_walk_fields os _ f info
  · exact get_xattrs_walk_fields os _ f info

theorem get_selinux_context_fields (os : OS) (info : GFileInfo)
    (matcher : Option GFileAttributeMatcher) (f : Bool) :
    (get_selinux_context os info matcher f).1.is_hidden = info.is_hidden
    ∧ (get_selinux_context os info matcher f).1.symlink_target = info.symlink_target := by
  unfold get_selinux_context
  repeat' split
  all_goals exact ⟨rfl, rfl⟩

/-! ### Claims about the entry points -/

/-- Claim C3: a path-based call requesting only name and is-hidden with no
matcher issues no OS call at all and returns a bag holding exactly the
name and is-hidden entries. -/
theorem c3_trivial_request_no_os_calls (os : OS) (basename : Option String)
    (follow_symlinks : Bool) :
    g_file_info_simple_get os basename { name := true, is_hidden := true } none
        follow_symlinks
      = (.ok { name := some basename,
               is_hidden := some (basename_starts_with_dot basename) }, []) :=
  rfl

/-- Claim C4: when the primary metadata call fails (stat/lstat for the
path entry point, fstat for the descriptor one), the operation returns no
bag, only an error carrying the OS error code mapped to a domain error
kind. -/
theorem c4_stat_failure_aborts (os : OS) (basename : Option String)
    (requested : GFileInfoRequestFlags) (matcher : Option GFileAttributeMatcher)
    (follow_symlinks : Bool) (e : Nat)
    (hno : (requested_only_trivial requested && matcher.isNone) = false)
    (hstat : os.statResult follow_symlinks = .error e)
    (osfd : OSFd) (e2 : Nat) (hfstat : osfd.fstatResult = .error e2)
    (req2 : GFileInfoRequestFlags) (attrs : Option String) :
    g_file_info_simple_get os basename requested matcher follow_symlinks
      = (.error ⟨g_file_error_from_errno e⟩, [stat_call follow_symlinks])
    ∧ g_file_info_simple_get_from_fd osfd req2 attrs
      = (.error (g_vfs_error_from_errno e2), [.fstatCall]) := by
  constructor
  · simp only [g_file_info_simple_get, hno, hstat, Bool.false_eq_true, if_false]
  · simp only [g_file_info_simple_get_from_fd, hfstat]

theorem c4_stat_failure_aborts_witness :
    ((requested_only_trivial statOnlyRequest
        && (none : Option GFileAttributeMatcher).isNone) = false
     ∧ osAllFail.statResult true = .error ENOENT
     ∧ osFdFail.fstatResult = .error EACCES)
    ∧ g_file_info_simple_get osAllFail none statOnlyRequest none true
      = (.error ⟨g_file_error_from_errno ENOENT⟩, [stat_call true])
    ∧ g_file_info_simple_get_from_fd osFdFail statOnlyRequest none
      = (.error (g_vfs_error_from_errno EACCES), [.fstatCall]) := by
  have h := c4_stat_failure_aborts osAllFail none statOnlyRequest none true ENOENT
    rfl rfl osFdFail EACCES rfl statOnlyRequest none
  exact ⟨⟨rfl, rfl, rfl⟩, h.1, h.2⟩

/-- Claim C5 (demonstration of the divergence): in one collection pass
with `follow_symlinks = true` and a matcher for `selinux:context`, the
code issues `stat` (the symlink-following variant) yet `lgetfilecon` (the
symlink-preserving one): the security-label call uses the `l`-variant
exactly when the flag asks to follow symlinks, so the variants are not
propagated uniformly. -/
theorem c5_selinux_variant_inverted :
    (g_file_info_simple_get osPlainFile (some "f") statOnlyRequest
        (some selinuxOnlyMatcher) true).2
      = [OSCall.statCall, OSCall.lgetfileconCall]
    ∧ follows_symlink OSCall.statCall = true
    ∧ follows_symlink OSCall.lgetfileconCall = false :=
  ⟨rfl, rfl, rfl⟩

/-- Claim C6: when the symlink-target flag is requested and `readlink`
fails, the call still succeeds — a bag is returned — and the
symlink-target field is simply absent from it. -/
theorem c6_symlink_failure_nonfatal (os : OS) (basename : Option String)
    (requested : GFileInfoRequestFlags) (matcher : Option GFileAttributeMatcher)
    (follow_symlinks : Bool) (sb : StatData)
    (hreq : requested.symlink_target = true)
    (hlink : os.readlinkTarget = none)
    (hstat : os.statResult follow_symlinks = .ok sb) :
    ∃ info,
      (g_file_info_simple_get os basename requested matcher follow_symlinks).1 = .ok info
      ∧ info.symlink_target = none := by
  have hno : (requested_only_trivial requested && matcher.isNone) = false := by
    simp [requested_only_trivial, hreq]
  simp only [g_file_info_simple_get, hno, Bool.false_eq_true, if_false, hstat, hreq,
    if_true, hlink]
  refine ⟨_, rfl, ?_⟩
  rw [(get_xattrs_fields _ _ _ _).2, (get_selinux_context_fields _ _ _ _).2]
  rfl

theorem c6_symlink_failure_nonfatal_witness :
    (({ symlink_target := true } : GFileInfoRequestFlags).symlink_target = true
     ∧ osPlainFile.readlinkTarget = none
     ∧ osPlainFile.statResult true = .ok ⟨7⟩)
    ∧ ∃ info,
        (g_file_info_simple_get osPlainFile none { symlink_target := true } none true).1
          = .ok info
        ∧ info.symlink_target = none :=
  ⟨⟨rfl, rfl, rfl⟩,
   c6_symlink_failure_nonfatal osPlainFile none { symlink_target := true } none true ⟨7⟩
     rfl rfl rfl⟩

/-- Claim C8: a value longer than 63 bytes misses the stack buffer
(`ERANGE` on the 63-byte first call), after which the exact size is probed
with a zero-length call and the value refetched with a buffer of exactly
that size; the complete escaped value ends up stored under
`xattr:<name>`. -/
theorem c8_large_xattr_probe_path (os : OS) (info : GFileInfo) (attr : String)
    (follow_symlinks : Bool) (v : List Nat)
    (hv : os.xattrValue follow_symlinks attr = some v)
    (hlen : 63 < v.length) :
    get_one_xattr os info attr follow_symlinks
      = (g_file_info_set_attribute info ("xattr:" ++ attr)
           (escape_payload (escape_value v)),
         [xattr_call follow_symlinks attr 63, xattr_call follow_symlinks attr 0,
          xattr_call follow_symlinks attr v.length]) := by
  have h1 : ¬ v.length ≤ 63 := by omega
  have h2 : v.length ≠ 0 := by omega
  simp [get_one_xattr, getxattr_sem, hv, h1, h2, escape_xattr, List.take_length]

theorem c8_large_xattr_probe_path_witness :
    (osPlainFile.xattrValue true "user.big" = some (List.replicate 100 0)
     ∧ 63 < (List.replicate 100 0).length)
    ∧ get_one_xattr osPlainFile {} "user.big" true
      = (g_file_info_set_attribute {} ("xattr:" ++ "user.big")
           (escape_payload (escape_value (List.replicate 100 0))),
         [xattr_call true "user.big" 63, xattr_call true "user.big" 0,
          xattr_call true "user.big" (List.replicate 100 0).length]) :=
  ⟨⟨rfl, by rw [List.length_replicate]; omega⟩,
   c8_large_xattr_probe_path osPlainFile {} "user.big" true (List.replicate 100 0) rfl
     (by rw [List.length_replicate]; omega)⟩

theorem get_xattrs_fst_is_hidden (os : OS) (info : GFileInfo)
    (m : Option GFileAttributeMatcher) (f : Bool) :
    (get_xattrs os info m f).1.is_hidden = info.is_hidden :=
  (get_xattrs_fields os info m f).1

theorem get_selinux_fst_is_hidden (os : OS) (info : GFileInfo)
    (m : Option GFileAttributeMatcher) (f : Bool) :
    (get_selinux_context os info m f).1.is_hidden = info.is_hidden :=
  (get_selinux_context_fields os info m f).1

theorem set_symlink_target_is_hidden (i : GFileInfo) (t : Option (List Nat)) :
    (g_file_info_set_symlink_target i t).is_hidden = i.is_hidden := rfl

theorem set_from_stat_is_hidden (i : GFileInfo) (b : Bool) (s : StatData) :
    (g_file_info_set_from_stat i b s).is_hidden = i.is_hidden :=
  (set_from_stat_fields i b s).1

theorem set_is_hidden_proj (i : GFileInfo) (b : Bool) :
    (g_file_info_set_is_hidden i b).is_hidden = some b := rfl

/-- Claim C10: when the is-hidden flag is requested, the returned bag
always carries the is-hidden entry: with a null base name it is present
with value false (not omitted), and it is true exactly when the base name
is non-null and starts with a dot. -/
theorem c10_is_hidden_null_basename (os : OS) (basename : Option String)
    (requested : GFileInfoRequestFlags) (matcher : Option GFileAttributeMatcher)
    (follow_symlinks : Bool) (info : GFileInfo)
    (hreq : requested.is_hidden = true)
    (h : (g_file_info_simple_get os basename requested matcher follow_symlinks).1 = .ok info) :
    (basename = none → info.is_hidden = some false)
    ∧ (info.is_hidden = some true ↔
        ∃ s, basename = some s ∧ s.toList.head? = some '.') := by
  have hmain : info.is_hidden = some (basename_starts_with_dot basename) := by
    by_cases hfast : (requested_only_trivial requested && matcher.isNone) = true
    · simp only [g_file_info_simple_get, hfast, hreq, if_true] at h
      rw [Except.ok.injEq] at h
      subst h
      rfl
    · have hf : (requested_only_trivial requested && matcher.isNone) = false :=
        Bool.eq_false_iff.mpr hfast
      cases hstat : os.statResult follow_symlinks with
      | error e =>
        simp only [g_file_info_simple_get, hf, Bool.false_eq_true, if_false, hstat] at h
        simp at h
      | ok sb =>
        simp only [g_file_info_simple_get, hf, Bool.false_eq_true, if_false, hstat] at h
        rw [Except.ok.injEq] at h
        subst h
        rw [get_xattrs_fst_is_hidden, get_selinux_fst_is_hidden]
        split
        · simp [set_symlink_target_is_hidden, set_from_stat_is_hidden, hreq, set_is_hidden_proj]
        · simp [set_from_stat_is_hidden, hreq, set_is_hidden_proj]
  refine ⟨?_, ?_⟩
  · intro hb
    subst hb
    rw [hmain]
    rfl
  · rw [hmain]
    constructor
    · intro ht
      rw [Option.some.injEq] at ht
      cases hb : basename with
      | none => rw [hb] at ht; simp [basename_starts_with_dot] at ht
      | some s =>
        rw [hb] at ht
        simp only [basename_starts_with_dot] at ht
        refine ⟨s, rfl, ?_⟩
        cases hl : s.toList with
        | nil =>
          rw [hl] at ht
          exact absurd ht (by decide)
        | cons c cs =>
          rw [hl] at ht
          simp only [List.headD_cons, beq_iff_eq] at ht
          rw [List.head?_cons, ht]
    · rintro ⟨s, rfl, hc⟩
      simp only [basename_starts_with_dot]
      cases hl : s.toList with
      | nil =>
        rw [hl] at hc
        simp at hc
      | cons c cs =>
        rw [hl] at hc
        rw [List.head?_cons, Option.some.injEq] at hc
        subst hc
        simp only [List.headD_cons]
        decide


theorem c10_is_hidden_null_basename_witness :
    (({ name := true, is_hidden := true } : GFileInfoRequestFlags).is_hidden = true
     ∧ (g_file_info_simple_get osPlainFile none { name := true, is_hidden := true }
          none true).1
        = .ok { name := some none, is_hidden := some false })
    ∧ ((none : Option String) = none →
        ({ name := some none, is_hidden := some false } : GFileInfo).is_hidden = some false)
    ∧ (({ name := some none, is_hidden := some false } : GFileInfo).is_hidden = some true ↔
        ∃ s, (none : Option String) = some s ∧ s.toList.head? = some '.') :=
  have h := c10_is_hidden_null_basename osPlainFile none { name := true, is_hidden := true }
    none true { name := some none, is_hidden := some false } rfl rfl
  ⟨⟨rfl, rfl⟩, h.1, h.2⟩

end GFileInfoSimple
